import Mathlib

/-!
A shallow embedding of the two ImageJ Jython scripts of this repository —
`deepTime_buddy.py` (the temporal-compaction pipeline) and `dialog_FRAP.py`
(the FRAP channel-extraction / setup pipeline) — together with theorems
checking the specification's claims against the embedded code.

Conventions of the embedding:
* An `ImagePlus` is its ordered list of frame identities (`Nat`s) plus its
  calibration; the scripts never inspect pixel data themselves, so opaque
  frame identities suffice.
* Doubles from the dialog (`getNextNumber`) are modelled as `Rat`.
* Each script's module-level code is one function from the dialog outcome
  (`none` when the user cancelled, mirroring the `None` the setup functions
  return after `gd.wasCanceled()`) to a pair of
  (core steps actually executed, `Except` of the final bindings).
  An uncaught Jython exception is an `Except.error`.
* The external `ZProjector` reduction is an explicit `project` argument:
  the scripts only choose its method and slice range.
-/

namespace ImageJPlugins

/-- Time calibration as the scripts use `ij.measure.Calibration`:
`frameInterval` (a double, modelled as `Rat`) and the time unit string. -/
structure Calibration where
  frameInterval : Rat
  timeUnit : String
  deriving Repr, DecidableEq

/-- An `ImagePlus` as the scripts use it: the ordered frame identities of its
stack (1-indexed in ImageJ, 0-indexed in this list) plus its calibration. -/
structure ImagePlus where
  frames : List Nat
  cal : Calibration
  deriving Repr, DecidableEq

/-- The six projection methods of `methods_as_strings` / `methods_as_const`
(deepTime_buddy.py lines 44-46). -/
inductive Method where
  | avg | maxIntensity | minIntensity | sumSlices | sd | median
  deriving Repr, DecidableEq

/-- `Duplicator().run(imp, start_frame, stop_frame)` (deepTime_buddy.py
line 67): a new `ImagePlus` holding slices `start..stop` (1-indexed,
inclusive) of `imp`; the calibration is carried along. -/
def duplicatorRun (imp : ImagePlus) (start stop : Int) : ImagePlus :=
  { imp with frames := (imp.frames.drop (start.toNat - 1)).take (stop - start + 1).toNat }

/-- The core pipeline stages named by the specification; a run records which
of them it actually executed. -/
inductive CoreStep where
  | rangeSelection | compaction | channelExtraction | bleachDetection
  deriving Repr, DecidableEq

/-- How a module-level run aborts.
* `attributeErrorOnNone`: deepTime_buddy.py line 50 calls
  `gd.getNextNumber()` on the `None` that `setupDialog` returns after a
  cancel — an uncaught AttributeError.
* `typeErrorUnpackNone`: dialog_FRAP.py line 71 tuple-unpacks the `None`
  that `FRAPsetup` returns after a cancel — an uncaught TypeError.
* `startStopAbort msg`: deepTime_buddy.py lines 62-64 show `msg` to the user
  via `IJ.showMessage` and then raise, aborting the run. (The raised name
  `RuntimeException` is not imported, so the actual exception is a
  NameError, but the run aborts after the user-facing message either way.)
* `indexOutOfBounds`: an out-of-range sequence index (uncaught IndexError). -/
inductive RunError where
  | attributeErrorOnNone
  | typeErrorUnpackNone
  | startStopAbort (userMessage : String)
  | indexOutOfBounds
  deriving Repr, DecidableEq

/-- The values deepTime_buddy.py reads back from its `GenericDialog`, in
`getNext*` order (lines 50, 51, 59, 60, 72, 74). `chosen_method` stands for
`medthod_dict[gd.getNextChoice()]`, the choice being drawn from the fixed
six-method list. -/
structure DeepTimeDialog where
  frame_interval : Rat
  time_unit : String
  start_frame : Int
  stop_frame : Int
  no_frames_per_integral : Int
  chosen_method : Method
  deriving Repr, DecidableEq

/-- The final bindings of a completed deepTime_buddy.py run: the final value
of the name `imp`, whether `Duplicator` produced a copy (so that frame
identity of the input is or is not preserved), the frames handed to the
`ZProjector`, and the produced output frames. -/
structure DeepTimeResult where
  imp : ImagePlus
  duplicated : Bool
  projInput : List Nat
  output : List Nat
  deriving Repr, DecidableEq

/-- The module-level code of deepTime_buddy.py (lines 39-79) as a function of
the initial image `imp0`, the dialog outcome (`none` = user cancelled), and
the external projection engine `project`.

Faithful to the source line by line:
* lines 50-56: the dialog's interval/unit are written into the calibration
  of `imp` (object identity: the `ZProjector` built on line 41 holds the
  same object, whose frame list is never mutated);
* lines 62-64: `start_frame > stop_frame` shows a message and raises;
* lines 66-67: unless `start_frame == 1 and stop_frame == imp.getNFrames()`,
  `imp` is rebound to a `Duplicator` copy of the selected slices;
* lines 71-79: `no_frames_per_integral` (the window size) is read but never
  used; the `ZProjector` — still wrapping the original `imp0` stack — is run
  exactly once over the hardcoded slice range 1..10 (`setStartSlice(1)`,
  `setStopSlice(10)`), so the output is a single projected frame. -/
def deepTimeRun (imp0 : ImagePlus) (gd? : Option DeepTimeDialog)
    (project : Method → List Nat → Nat) :
    List CoreStep × Except RunError DeepTimeResult :=
  match gd? with
  | none => ([], Except.error RunError.attributeErrorOnNone)
  | some gd =>
    if gd.start_frame > gd.stop_frame then
      ([], Except.error (RunError.startStopAbort "Start frame > Stop frame!"))
    else if gd.start_frame ≠ 1 ∨ gd.stop_frame ≠ (imp0.frames.length : Int) then
      ([CoreStep.rangeSelection, CoreStep.compaction],
        Except.ok
          { imp := duplicatorRun
              { imp0 with
                cal := { frameInterval := gd.frame_interval, timeUnit := gd.time_unit } }
              gd.start_frame gd.stop_frame
            duplicated := true
            projInput := imp0.frames.take 10
            output := [project gd.chosen_method (imp0.frames.take 10)] })
    else
      ([CoreStep.compaction],
        Except.ok
          { imp := { imp0 with
              cal := { frameInterval := gd.frame_interval, timeUnit := gd.time_unit } }
            duplicated := false
            projInput := imp0.frames.take 10
            output := [project gd.chosen_method (imp0.frames.take 10)] })

/-- Python sequence indexing as Jython applies it to the array returned by
`ChannelSplitter.split`: a nonnegative index reads from the front, a negative
index counts back from the end, and an index outside `[-len, len)` raises an
IndexError (modelled as `none`). -/
def pythonGet {α : Type} (l : List α) (i : Int) : Option α :=
  if 0 ≤ i then l[i.toNat]?
  else if 0 ≤ i + (l.length : Int) then l[(i + (l.length : Int)).toNat]?
  else none

/-- `channelSelector(imp, channelno)` (dialog_FRAP.py lines 61-67): splits the
multi-channel stack into its per-channel frame sequences (the model of a
multi-channel stack is already that list of sequences) and returns
`imps[(channelno-1)]` under Python indexing semantics. -/
def channelSelector (stack : List (List Nat)) (channelno : Int) : Option (List Nat) :=
  pythonGet stack (channelno - 1)

/-- The choice list `channels = [str(ch) for ch in range(1, imp.getNChannels()+1)]`
(dialog_FRAP.py line 28), after the `int(...)` parse the script applies to the
selected entry (line 45): the integers `1..n`. -/
def frapChannelChoices (n : Nat) : List Int :=
  (List.range n).map (fun ch : Nat => (ch : Int) + 1)

/-- The values dialog_FRAP.py reads back from its `GenericDialog`
(lines 44-48). `channel` is `int(gd.getNextChoice())`. -/
structure FrapDialog where
  frame_interval : Rat
  channel : Int
  max_frame : Int
  manual_FRAP_frame : Int
  autoFRAPflag : Bool
  deriving Repr, DecidableEq

/-- The tuple `imp, max_frame, manual_FRAP_frame, autoFRAPflag` that
`FRAPsetup` returns (dialog_FRAP.py line 59), plus the calibration it wrote
into the image (lines 52-53). -/
structure FrapResult where
  imp : List Nat
  cal : Calibration
  max_frame : Int
  manual_FRAP_frame : Int
  autoFRAPflag : Bool
  deriving Repr, DecidableEq

/-- The module-level code of dialog_FRAP.py (lines 70-72) together with
`FRAPsetup`: on cancel, `FRAPsetup` logs and returns `None`, and the caller's
tuple unpacking of that `None` raises a TypeError; otherwise the dialog
values are read, the frame interval is written into the calibration (the
time unit is untouched), and the chosen channel is extracted. -/
def frapRun (stack : List (List Nat)) (cal0 : Calibration) (gd? : Option FrapDialog) :
    List CoreStep × Except RunError FrapResult :=
  match gd? with
  | none => ([], Except.error RunError.typeErrorUnpackNone)
  | some gd =>
    match channelSelector stack gd.channel with
    | none => ([CoreStep.channelExtraction], Except.error RunError.indexOutOfBounds)
    | some chImp =>
        ([CoreStep.channelExtraction],
          Except.ok
            { imp := chImp
              cal := { frameInterval := gd.frame_interval, timeUnit := cal0.timeUnit }
              max_frame := gd.max_frame
              manual_FRAP_frame := gd.manual_FRAP_frame
              autoFRAPflag := gd.autoFRAPflag })

/-- Modelled from the spec: the error cases of `BleachFrameDetector.detect`
(spec §4.5); the detector itself is absent from the source — dialog_FRAP.py
only collects `manual_FRAP_frame` and `autoFRAPflag` and returns them. -/
inductive DetectError where
  | invalidFrameIndex
  | noBleachDetected
  deriving Repr, DecidableEq

/-- Modelled from the spec: a `BleachEvent` record (spec §3),
`{frameIndex, detected}` with `detected` distinguishing automatic detection
from a manual override. -/
structure BleachEvent where
  frameIndex : Int
  detected : Bool
  deriving Repr, DecidableEq

/-- Modelled from the spec: the Manual branch of `detect` (spec §4.5), which
the source never implements. Returns `{frameIndex: manualIndex,
detected: false}` without scanning the series; precondition
`1 ≤ manualIndex ≤ length(series)`, else `InvalidFrameIndex`. -/
def detectManual (series : List Rat) (manualIndex : Int) : Except DetectError BleachEvent :=
  if 1 ≤ manualIndex ∧ manualIndex ≤ (series.length : Int) then
    Except.ok { frameIndex := manualIndex, detected := false }
  else Except.error DetectError.invalidFrameIndex

/-- Modelled from the spec: the steepest-drop scan of the Automatic branch of
`detect` (spec §4.5), absent from the source. Returns the position and value
of the greatest element of the drop list, keeping the earliest on ties;
positions count from the first argument. -/
def bestDropFrom : Nat → List Rat → Option (Nat × Rat)
  | _, [] => none
  | i, d :: rest =>
    match bestDropFrom (i + 1) rest with
    | none => some (i, d)
    | some (j, e) => if d < e then some (j, e) else some (i, d)

/-- Modelled from the spec: the single-step intensity decreases of a series —
entry `i` is `series[i] - series[i+1]`, positive on a drop. -/
def seriesDrops (series : List Rat) : List Rat :=
  List.zipWith (fun a b => a - b) series (series.drop 1)

/-- Modelled from the spec: the Automatic branch of `detect` (spec §4.5),
absent from the source. Finds the steepest single-step decrease (earliest on
ties) and fails with `NoBleachDetected` unless it exceeds the configurable
noise threshold; on success the reported 1-indexed frame is the one the drop
lands on. -/
def detectAuto (series : List Rat) (threshold : Rat) : Except DetectError BleachEvent :=
  match bestDropFrom 0 (seriesDrops series) with
  | none => Except.error DetectError.noBleachDetected
  | some (i, d) =>
    if threshold < d then Except.ok { frameIndex := (i : Int) + 2, detected := true }
    else Except.error DetectError.noBleachDetected

/-- The 95-frame single-channel sequence of the spec's end-to-end partial
window example (§8), frames numbered 1..95. -/
def imp95 : ImagePlus :=
  { frames := (List.range 95).map (fun k => k + 1)
    cal := { frameInterval := 1, timeUnit := "s" } }

/-- A deepTime dialog selecting the full 1..95 range with window size `w`. -/
def gd95 (w : Int) : DeepTimeDialog :=
  { frame_interval := 1, time_unit := "s", start_frame := 1, stop_frame := 95
    no_frames_per_integral := w, chosen_method := Method.avg }

/-- A concrete stand-in projection engine for evaluating runs: the frame
count of its input window. -/
def projLen : Method → List Nat → Nat := fun _ l => l.length

/-- The drop value reported by `bestDropFrom` is an element of the scanned
list. -/
lemma bestDropFrom_mem (l : List Rat) : ∀ (i j : Nat) (e : Rat),
    bestDropFrom i l = some (j, e) → e ∈ l := by
  induction l with
  | nil =>
    intro i j e h
    simp [bestDropFrom] at h
  | cons d rest ih =>
    intro i j e h
    simp only [bestDropFrom] at h
    split at h
    · rw [Option.some.injEq, Prod.mk.injEq] at h
      obtain ⟨-, rfl⟩ := h
      exact List.mem_cons_self _ _
    · rename_i j1 e1 heq
      split at h
      · rw [Option.some.injEq, Prod.mk.injEq] at h
        obtain ⟨-, rfl⟩ := h
        exact List.mem_cons_of_mem _ (ih _ _ _ heq)
      · rw [Option.some.injEq, Prod.mk.injEq] at h
        obtain ⟨-, rfl⟩ := h
        exact List.mem_cons_self _ _

/-- C1: the claim says `compact` partitions an `L`-frame sequence into
`ceil(L / windowSize)` consecutive windows and projects each one. The code
does not: on the spec's own 95-frame, windowSize-10 example the run produces
exactly one output frame (computed from the hardcoded slice range 1..10)
instead of the claimed ceil(95/10) = 10, and rerunning with windowSize 5
yields the identical result, because `no_frames_per_integral` is read from
the dialog and then never used. -/
theorem compaction_projects_once_ignoring_windowSize :
    ((deepTimeRun imp95 (some (gd95 10)) projLen).2.map
        (fun r => r.output.length) = Except.ok 1) ∧
    deepTimeRun imp95 (some (gd95 5)) projLen = deepTimeRun imp95 (some (gd95 10)) projLen ∧
    ((deepTimeRun imp95 (some (gd95 10)) projLen).2.map
        (fun r => r.projInput) = Except.ok ((List.range 10).map (fun k => k + 1))) ∧
    (95 + 10 - 1) / 10 = 10 := by
  refine ⟨rfl, rfl, ?_, rfl⟩
  rfl

/-- C2: whenever the dialog's start frame exceeds its stop frame, the
deepTime run aborts with the user-facing message
"Start frame > Stop frame!" before any core stage executes; the bounds are
never clamped and no result is produced. -/
theorem select_invalid_range_fails (imp0 : ImagePlus) (gd : DeepTimeDialog)
    (project : Method → List Nat → Nat) (h : gd.stop_frame < gd.start_frame) :
    deepTimeRun imp0 (some gd) project =
      ([], Except.error (RunError.startStopAbort "Start frame > Stop frame!")) := by
  simp only [deepTimeRun]
  rw [if_pos h]

/-- Witness for C2 at a concrete run: start 3, stop 2. -/
theorem select_invalid_range_fails_witness :
    deepTimeRun { frames := [1, 2, 3], cal := { frameInterval := 0, timeUnit := "s" } }
      (some { frame_interval := 1, time_unit := "s", start_frame := 3, stop_frame := 2,
              no_frames_per_integral := 10, chosen_method := Method.avg })
      projLen =
      ([], Except.error (RunError.startStopAbort "Start frame > Stop frame!")) :=
  select_invalid_range_fails _ _ _ (by decide)

/-- C3: selecting the full range (start 1, stop = length) skips the
`Duplicator`: the run succeeds and its final image holds the input's frames
in order, with no copy having been made. -/
theorem select_full_range_identity (imp0 : ImagePlus) (gd : DeepTimeDialog)
    (project : Method → List Nat → Nat) (hne : imp0.frames ≠ [])
    (h1 : gd.start_frame = 1) (h2 : gd.stop_frame = (imp0.frames.length : Int)) :
    ∃ r : DeepTimeResult, (deepTimeRun imp0 (some gd) project).2 = Except.ok r ∧
      r.imp.frames = imp0.frames ∧ r.duplicated = false := by
  have hlen : 0 < imp0.frames.length := List.length_pos.mpr hne
  refine ⟨{ imp := { imp0 with
              cal := { frameInterval := gd.frame_interval, timeUnit := gd.time_unit } }
            duplicated := false
            projInput := imp0.frames.take 10
            output := [project gd.chosen_method (imp0.frames.take 10)] }, ?_, rfl, rfl⟩
  simp only [deepTimeRun]
  rw [if_neg (by omega), if_neg (by simp [h1, h2])]

/-- Witness for C3 at a concrete run: a 2-frame stack, start 1, stop 2. -/
theorem select_full_range_identity_witness :
    ∃ r : DeepTimeResult,
      (deepTimeRun { frames := [7, 8], cal := { frameInterval := 0, timeUnit := "s" } }
        (some { frame_interval := 2, time_unit := "min", start_frame := 1, stop_frame := 2,
                no_frames_per_integral := 5, chosen_method := Method.median })
        projLen).2 = Except.ok r ∧
      r.imp.frames = [7, 8] ∧ r.duplicated = false :=
  select_full_range_identity _ _ _ (by decide) (by decide) (by decide)

/-- C4: the spec-modelled Manual detector returns `{frameIndex := k,
detected := false}` for every `k` in `[1, length]`, fails with
`InvalidFrameIndex` for every `k` outside it, and never inspects the series
content — two series of equal length are treated identically. -/
theorem detectManual_spec (series : List Rat) (k : Int) :
    (1 ≤ k ∧ k ≤ (series.length : Int) →
      detectManual series k = Except.ok { frameIndex := k, detected := false }) ∧
    (¬ (1 ≤ k ∧ k ≤ (series.length : Int)) →
      detectManual series k = Except.error DetectError.invalidFrameIndex) ∧
    ∀ series2 : List Rat, series2.length = series.length →
      detectManual series2 k = detectManual series k := by
  refine ⟨fun h => ?_, fun h => ?_, fun s2 hs => ?_⟩
  · unfold detectManual
    rw [if_pos h]
  · unfold detectManual
    rw [if_neg h]
  · unfold detectManual
    rw [hs]

/-- Witness for C4 at a concrete input: a 2-point series, manual index 1. -/
theorem detectManual_spec_witness :
    detectManual [(5 : Rat), 4] 1 = Except.ok { frameIndex := 1, detected := false } :=
  (detectManual_spec [5, 4] 1).1 (by decide)

/-- C5: if no single-step decrease of the series exceeds the noise threshold
(in particular on any monotonically increasing series with a nonnegative
threshold), the spec-modelled Automatic detector fails with
`NoBleachDetected`; it returns no index at all, hence never index 0. -/
theorem detectAuto_no_qualifying_drop (series : List Rat) (threshold : Rat)
    (h : ∀ d ∈ seriesDrops series, d ≤ threshold) :
    detectAuto series threshold = Except.error DetectError.noBleachDetected := by
  unfold detectAuto
  split
  · rfl
  · rename_i i d heq
    rw [if_neg (not_lt.mpr (h d (bestDropFrom_mem _ _ _ _ heq)))]

/-- Witness for C5 at a concrete input: the increasing series 1, 2, 3 with
threshold 0. -/
theorem detectAuto_no_qualifying_drop_witness :
    detectAuto [(1 : Rat), 2, 3] 0 = Except.error DetectError.noBleachDetected :=
  detectAuto_no_qualifying_drop [1, 2, 3] 0 (by
    intro d hd
    simp only [seriesDrops, List.drop_succ_cons, List.drop_zero, List.zipWith_cons_cons,
      List.zipWith_nil_right, List.mem_cons, List.not_mem_nil, or_false] at hd
    rcases hd with rfl | rfl <;> norm_num)

/-- C6 counterexample: channel 0 lies outside `[1, nChannels]` on a
2-channel stack, yet `channelSelector` does not fail — Python's negative
indexing silently returns the last channel. -/
theorem channelSelector_zero_wraps :
    channelSelector [[10], [20]] 0 = some [20] ∧
    channelSelector [[10], [20]] 0 ≠ none := by
  decide

/-- C6 amended: `channelSelector` validates nothing. For channel in
`[1, nChannels]` it returns that channel's sub-stack; for channel in
`[1 - nChannels, 0]` Python's negative indexing silently returns channel
`nChannels + channel` instead of failing; only for channel > nChannels or
channel < 1 - nChannels does the call fail, and then with an uncaught
index error rather than a typed `InvalidChannel`. -/
theorem channelSelector_bounds (stack : List (List Nat)) (ch : Int) :
    ((stack.length : Int) < ch ∨ ch < 1 - (stack.length : Int) →
      channelSelector stack ch = none) ∧
    (1 ≤ ch → ch ≤ (stack.length : Int) →
      channelSelector stack ch = stack[(ch - 1).toNat]? ∧
      (channelSelector stack ch).isSome = true) ∧
    (1 - (stack.length : Int) ≤ ch → ch ≤ 0 →
      channelSelector stack ch = stack[(ch - 1 + (stack.length : Int)).toNat]? ∧
      (channelSelector stack ch).isSome = true) := by
  refine ⟨?_, fun h1 h2 => ?_, fun h1 h2 => ?_⟩
  · rintro (hgt | hlt)
    · unfold channelSelector pythonGet
      rw [if_pos (by omega)]
      exact List.getElem?_eq_none (by omega)
    · unfold channelSelector pythonGet
      rw [if_neg (by omega), if_neg (by omega)]
  · unfold channelSelector pythonGet
    rw [if_pos (by omega)]
    refine ⟨rfl, ?_⟩
    rw [List.getElem?_eq_getElem (by omega)]
    rfl
  · unfold channelSelector pythonGet
    rw [if_neg (by omega), if_pos (by omega)]
    refine ⟨rfl, ?_⟩
    rw [List.getElem?_eq_getElem (by omega)]
    rfl

/-- Witness for the amended C6 at a concrete input: channel 3 on a
2-channel stack does fail. -/
theorem channelSelector_bounds_witness :
    channelSelector [[10], [20]] 3 = none :=
  (channelSelector_bounds [[10], [20]] 3).1 (Or.inl (by decide))

/-- C7: when the dialog is cancelled, both module-level runs execute no core
stage (empty step trace), but neither terminates as a normal early exit:
deepTime_buddy.py dereferences the `None` returned by `setupDialog`
(AttributeError) and dialog_FRAP.py tuple-unpacks the `None` returned by
`FRAPsetup` (TypeError) — each run ends in an uncaught exception. -/
theorem cancel_crashes_before_core (imp0 : ImagePlus) (stack : List (List Nat))
    (cal0 : Calibration) (project : Method → List Nat → Nat) :
    deepTimeRun imp0 none project = ([], Except.error RunError.attributeErrorOnNone) ∧
    frapRun stack cal0 none = ([], Except.error RunError.typeErrorUnpackNone) :=
  ⟨rfl, rfl⟩

/-- C8: every successful deepTime run leaves on its final image exactly the
calibration the dialog supplied — `frameInterval` and `timeUnit` verbatim,
with no `originalInterval * windowSize` computation anywhere (the result is
independent of `no_frames_per_integral`). -/
theorem calibration_set_exactly (imp0 : ImagePlus) (gd : DeepTimeDialog)
    (project : Method → List Nat → Nat) (t : List CoreStep) (r : DeepTimeResult)
    (h : deepTimeRun imp0 (some gd) project = (t, Except.ok r)) :
    r.imp.cal = { frameInterval := gd.frame_interval, timeUnit := gd.time_unit } := by
  simp only [deepTimeRun] at h
  split at h
  · simp at h
  · split at h
    · rw [Prod.mk.injEq, Except.ok.injEq] at h
      obtain ⟨-, rfl⟩ := h
      rfl
    · rw [Prod.mk.injEq, Except.ok.injEq] at h
      obtain ⟨-, rfl⟩ := h
      rfl

/-- Witness for C8 at a concrete run: interval 2, unit "min", subrange 2..3
of a 4-frame stack. -/
theorem calibration_set_exactly_witness :
    ({ imp := { frames := [2, 3], cal := { frameInterval := 2, timeUnit := "min" } }
       duplicated := true, projInput := [1, 2, 3, 4]
       output := [4] } : DeepTimeResult).imp.cal =
      { frameInterval := 2, timeUnit := "min" } :=
  calibration_set_exactly
    { frames := [1, 2, 3, 4], cal := { frameInterval := 0, timeUnit := "s" } }
    { frame_interval := 2, time_unit := "min", start_frame := 2, stop_frame := 3,
      no_frames_per_integral := 7, chosen_method := Method.sumSlices }
    projLen [CoreStep.rangeSelection, CoreStep.compaction] _ rfl

/-- C9: when the channel number is an entry of the FRAP dialog's choice list
(the integers 1..nChannels), the index `channelno - 1` is nonnegative and
within bounds of the split array, so `channelSelector` takes its in-range
branch and returns a channel — the out-of-range path is unreachable from
this entry point. -/
theorem frap_dialog_channel_in_bounds (stack : List (List Nat)) (ch : Int)
    (h : ch ∈ frapChannelChoices stack.length) :
    0 ≤ ch - 1 ∧ (ch - 1).toNat < stack.length ∧
    channelSelector stack ch = stack[(ch - 1).toNat]? ∧
    (channelSelector stack ch).isSome = true := by
  rw [frapChannelChoices] at h
  obtain ⟨k, hk, rfl⟩ := List.mem_map.mp h
  have hk2 : k < stack.length := List.mem_range.mp hk
  refine ⟨by omega, by omega, ?_, ?_⟩
  · unfold channelSelector pythonGet
    rw [if_pos (by omega)]
  · unfold channelSelector pythonGet
    rw [if_pos (by omega), List.getElem?_eq_getElem (by omega)]
    rfl

/-- Witness for C9 at a concrete input: choice 2 from the 2-channel list. -/
theorem frap_dialog_channel_in_bounds_witness :
    0 ≤ (2 : Int) - 1 ∧ ((2 : Int) - 1).toNat < ([[10], [20]] : List (List Nat)).length ∧
    channelSelector [[10], [20]] 2 = ([[10], [20]] : List (List Nat))[((2 : Int) - 1).toNat]? ∧
    (channelSelector [[10], [20]] 2).isSome = true :=
  frap_dialog_channel_in_bounds [[10], [20]] 2 (by decide)

/-- C10: in every successful deepTime run the frames handed to the
`ZProjector` are slices 1..10 of the original full stack — the projector was
built from `imp0` before the dialog ran, and the subrange duplicate is never
passed to it — so the projected output frame is computed from the original
stack for every choice of start and stop. -/
theorem projection_uses_original_stack (imp0 : ImagePlus) (gd : DeepTimeDialog)
    (project : Method → List Nat → Nat) (t : List CoreStep) (r : DeepTimeResult)
    (h : deepTimeRun imp0 (some gd) project = (t, Except.ok r)) :
    r.projInput = imp0.frames.take 10 ∧
    r.output = [project gd.chosen_method (imp0.frames.take 10)] := by
  simp only [deepTimeRun] at h
  split at h
  · simp at h
  · split at h
    · rw [Prod.mk.injEq, Except.ok.injEq] at h
      obtain ⟨-, rfl⟩ := h
      exact ⟨rfl, rfl⟩
    · rw [Prod.mk.injEq, Except.ok.injEq] at h
      obtain ⟨-, rfl⟩ := h
      exact ⟨rfl, rfl⟩

/-- Witness for C10 at a concrete run in which a subrange duplicate is made
(start 2, stop 4 of a 5-frame stack): the projection input is still the
original stack. -/
theorem projection_uses_original_stack_witness :
    ({ imp := { frames := [2, 3, 4], cal := { frameInterval := 1, timeUnit := "s" } }
       duplicated := true, projInput := [1, 2, 3, 4, 5]
       output := [5] } : DeepTimeResult).projInput = ([1, 2, 3, 4, 5] : List Nat).take 10 ∧
    ({ imp := { frames := [2, 3, 4], cal := { frameInterval := 1, timeUnit := "s" } }
       duplicated := true, projInput := [1, 2, 3, 4, 5]
       output := [5] } : DeepTimeResult).output =
      [projLen Method.avg (([1, 2, 3, 4, 5] : List Nat).take 10)] :=
  projection_uses_original_stack
    { frames := [1, 2, 3, 4, 5], cal := { frameInterval := 0, timeUnit := "s" } }
    { frame_interval := 1, time_unit := "s", start_frame := 2, stop_frame := 4,
      no_frames_per_integral := 3, chosen_method := Method.avg }
    projLen [CoreStep.rangeSelection, CoreStep.compaction] _ rfl

end ImageJPlugins
